import Mathlib

/-!
Verification development for the Python_Graphing repository.

The repository consists of four Python scripts:
  - time_series_plot.py    : synthetic data + moving-average smoothing + plot
  - log_trend_analyzer.py  : parse `<timestamp>,<level>,<instrument_id>,<message>`
                             log lines, extract key=value metrics, plot trends
  - csv_trend_analyzer.py  : load a CSV, filter by instrument, summarize, plot
  - json_trend_analyzer.py : load a JSON array of records, filter, summarize, plot

This file embeds the data-handling core of those scripts (the parts that do not
merely call a plotting surface) as executable Lean definitions and proves
properties about them.  Numeric values are modelled with `ℚ` (exact arithmetic;
the Python code uses IEEE doubles, but every property below is about structure,
lengths, presence/absence of fields and exact linear arithmetic on small
inputs, where ℚ and float agree).  External library calls with rich behaviour
(`pd.to_datetime`) are taken as parameters of the embedding, so the theorems
hold for every possible behaviour of that collaborator.
-/

namespace PythonGraphing

/-! ## time_series_plot.py : `moving_average` via `np.convolve(x, w, mode="same")`

`np.convolve(a, v, mode)` (numpy): the arrays are swapped if necessary so that
the first is the longer; an empty array raises `ValueError`.  The full discrete
convolution has length `N + W - 1`; mode `"same"` returns the slice of length
`max(N, W)` starting at offset `(min(N, W) - 1) / 2` (this offset follows from
numpy's correlate kernel, which uses `n_left = n2 >> 1`, `out[k] =
full[k + n2 - 1 - n_left]` with `n2 = min(N, W)`; it reproduces the example
`np.convolve([1,2,3],[0,1,0.5],'same') = [1., 2.5, 4.]` from the numpy
documentation). -/

/-- Zero-padded indexing into a sequence: `xpad x i = x[i]` when `i` is in
range and `0` otherwise (the phantom samples of a zero-padded convolution). -/
def xpad (x : List ℚ) (i : ℤ) : ℚ :=
  if i < 0 then 0 else (x[i.toNat]?).getD 0

/-- Kernel indexing (total, `0` out of range). -/
def wget (w : List ℚ) (j : ℕ) : ℚ :=
  (w[j]?).getD 0

/-- Entry `t` of the full discrete convolution of `x` with kernel `w`,
extended by `0` outside `[0, N + W - 2]`:  `Σ_j x[t - j] * w[j]`. -/
def convFullEntry (x w : List ℚ) (t : ℤ) : ℚ :=
  ((List.range w.length).map (fun (j : ℕ) => xpad x (t - (j : ℤ)) * wget w j)).sum

/-- Start offset of the `mode="same"` slice in the full convolution. -/
def sameOffset (n m : ℕ) : ℕ :=
  (min n m - 1) / 2

/-- Model of `np.convolve(x, w, mode="same")`: `none` models the `ValueError` numpy
raises when either input is empty; otherwise the centered slice of length
`max N W` of the full convolution. -/
def convolveSame (x w : List ℚ) : Option (List ℚ) :=
  if x.isEmpty || w.isEmpty then none
  else some ((List.range (max x.length w.length)).map
    (fun (k : ℕ) => convFullEntry x w ((k : ℤ) + (sameOffset x.length w.length : ℤ))))

/-- Failure modes of `moving_average`: the explicit `ValueError("window_size
must be >= 1")` guard, and the `ValueError` numpy raises inside `np.convolve`
when the input array is empty. -/
inductive MAError where
  | invalidArgument : MAError
  | emptyInput : MAError
deriving DecidableEq

/-- Function `moving_average` from time_series_plot.py:

    if window_size < 1: raise ValueError("window_size must be >= 1")
    window = np.ones(window_size) / window_size
    return np.convolve(x, window, mode="same")
-/
def moving_average (x : List ℚ) (window_size : ℤ) : Except MAError (List ℚ) :=
  if window_size < 1 then .error .invalidArgument
  else
    let W : ℕ := window_size.toNat
    match convolveSame x (List.replicate W (1 / (W : ℚ))) with
    | none => .error .emptyInput
    | some out => .ok out

-- Sanity check against the worked example in the numpy documentation.
example : convolveSame [1, 2, 3] [0, 1, 1/2] = some [1, 5/2, 4] := by
  with_unfolding_all rfl

example : moving_average [1, 2] 3 = .ok [1/3, 1, 1] := by
  with_unfolding_all rfl

example : moving_average [1, 2, 3] 1 = .ok [1, 2, 3] := by
  with_unfolding_all rfl

example : moving_average [4, 8] (-1) = .error .invalidArgument := by
  rfl

/-- The sum of `W` consecutive zero-padded samples ending at (padded) index
`t`: `Σ_{j<W} x̂(t - j)`.  `convFullEntry` with the uniform kernel is this sum
scaled by `1/W`. -/
def windowSum (x : List ℚ) (W : ℕ) (t : ℤ) : ℚ :=
  ((List.range W).map (fun (j : ℕ) => xpad x (t - (j : ℤ)))).sum

theorem convFullEntry_replicate (x : List ℚ) (W : ℕ) (c : ℚ) (t : ℤ) :
    convFullEntry x (List.replicate W c) t = windowSum x W t * c := by
  unfold convFullEntry windowSum
  rw [List.length_replicate, ← List.sum_map_mul_right]
  refine congrArg List.sum (List.map_congr_left ?_)
  intro j hj
  have hjW : j < W := List.mem_range.mp hj
  simp [wget, List.getElem?_replicate, hjW]

/-- Closed form of what `moving_average` returns on nonempty input with a
valid window: entry `k` of the output is the zero-padded windowed sum ending
at padded index `k + sameOffset N W`, divided by `W`. -/
def maOut (x : List ℚ) (w : ℤ) : List ℚ :=
  (List.range (max x.length w.toNat)).map
    (fun (k : ℕ) =>
      windowSum x w.toNat ((k : ℤ) + (sameOffset x.length w.toNat : ℤ)) / (w.toNat : ℚ))

/-- Full characterization of `moving_average` on nonempty input with a valid
window: it succeeds and returns exactly `maOut x w`. -/
theorem moving_average_ok (x : List ℚ) (w : ℤ) (hx : x ≠ []) (hw : 1 ≤ w) :
    moving_average x w = .ok (maOut x w) := by
  have hxe : x.isEmpty = false := by
    cases x with
    | nil => exact absurd rfl hx
    | cons a as => rfl
  have hwe : (List.replicate w.toNat ((1 : ℚ) / (w.toNat : ℚ))).isEmpty = false := by
    cases h : w.toNat with
    | zero => omega
    | succ n => rfl
  unfold moving_average convolveSame
  rw [if_neg (by omega)]
  simp only [hxe, hwe, Bool.or_self, Bool.false_eq_true, if_false]
  unfold maOut
  simp only [List.length_replicate]
  refine congrArg Except.ok (List.map_congr_left ?_)
  intro k _
  rw [convFullEntry_replicate, mul_one_div]

theorem maOut_length (x : List ℚ) (w : ℤ) :
    (maOut x w).length = max x.length w.toNat := by
  simp [maOut]

theorem maOut_get (x : List ℚ) (w : ℤ) (k : ℕ) (hk : k < (maOut x w).length) :
    (maOut x w).get ⟨k, hk⟩ =
      windowSum x w.toNat ((k : ℤ) + (sameOffset x.length w.toNat : ℤ)) / (w.toNat : ℚ) := by
  simp [maOut]

theorem range_map_xpad (x : List ℚ) :
    (List.range x.length).map (fun (k : ℕ) => xpad x (k : ℤ)) = x := by
  apply List.ext_getElem
  · simp
  · intro i h1 h2
    simp only [List.getElem_map, List.getElem_range]
    unfold xpad
    rw [if_neg (by omega)]
    simp only [Int.toNat_natCast]
    rw [List.getElem?_eq_getElem h2]
    rfl

theorem maOut_one (x : List ℚ) (hx : x ≠ []) : maOut x 1 = x := by
  have hN : 1 ≤ x.length := List.length_pos.mpr hx
  have hoff : sameOffset x.length 1 = 0 := by
    unfold sameOffset
    omega
  have hmax : max x.length (1 : ℤ).toNat = x.length := by
    simp [Nat.max_eq_left hN]
  unfold maOut
  rw [hmax]
  have : ∀ (k : ℕ),
      windowSum x (1 : ℤ).toNat ((k : ℤ) + (sameOffset x.length (1 : ℤ).toNat : ℤ))
          / ((1 : ℤ).toNat : ℚ) = xpad x (k : ℤ) := by
    intro k
    show windowSum x 1 ((k : ℤ) + (sameOffset x.length 1 : ℤ)) / ((1 : ℕ) : ℚ) = xpad x (k : ℤ)
    rw [hoff]
    unfold windowSum
    rw [show List.range 1 = [0] from rfl]
    simp
  simp only [this]
  exact range_map_xpad x

/-- C1 (counterexample to the claim as stated): for input `[1]` of length
`N = 1` and window `W = 2 ≥ 1`, `moving_average` returns `[1/2, 1/2]`, a
sequence of length `2 ≠ 1`, so the output does not have the input's length. -/
theorem c1_counterexample :
    moving_average [(1 : ℚ)] 2 = .ok [1/2, 1/2] ∧
      ¬ ([(1 : ℚ)/2, 1/2].length = [(1 : ℚ)].length) :=
  ⟨by with_unfolding_all rfl, by simp⟩

/-- C1 (amended): for every nonempty input `x` of length `N` and window size
`W ≥ 1`, the moving average succeeds and returns the same-mode zero-padded
convolution of `x` with the uniform kernel: a sequence of length `max N W`
(not `N`) whose entry `k` equals the sum of the `W` zero-padded samples ending
at padded index `k + (min N W - 1)/2`, divided by `W` — for `W ≤ N` this is
the window of `W` samples centered on position `k`. -/
theorem c1_same_mode_convolution (x : List ℚ) (w : ℤ) (hx : x ≠ []) (hw : 1 ≤ w) :
    moving_average x w = .ok (maOut x w) ∧
      (maOut x w).length = max x.length w.toNat ∧
      ∀ (k : ℕ) (hk : k < (maOut x w).length),
        (maOut x w).get ⟨k, hk⟩ =
          windowSum x w.toNat ((k : ℤ) + (sameOffset x.length w.toNat : ℤ))
            / (w.toNat : ℚ) :=
  ⟨moving_average_ok x w hx hw, maOut_length x w, maOut_get x w⟩

/-- C1 witness: the amended theorem instantiated at `x = [1, 2]`, `W = 3`,
together with a concrete evaluation of the closed form. -/
theorem c1_witness :
    moving_average [(1 : ℚ), 2] 3 = .ok (maOut [(1 : ℚ), 2] 3) ∧
      maOut [(1 : ℚ), 2] 3 = [1/3, 1, 1] :=
  ⟨(c1_same_mode_convolution [(1 : ℚ), 2] 3 (by simp) (by norm_num)).1,
   by with_unfolding_all rfl⟩

/-- C2 (counterexample to the claim as stated): for input `[1, 2]` (length 2)
and window `W = 3` the moving average returns `[1/3, 1, 1]`, which has length
`3 ≠ 2`. -/
theorem c2_counterexample :
    moving_average [(1 : ℚ), 2] 3 = .ok [1/3, 1, 1] ∧
      ¬ ([(1 : ℚ)/3, 1, 1].length = [(1 : ℚ), 2].length) :=
  ⟨by with_unfolding_all rfl, by simp⟩

/-- C2 (amended): for every nonempty input and every `W ≥ 1` the moving
average succeeds with an output of length `max N W`; in particular the output
length equals the input length exactly when `W ≤ N`. -/
theorem c2_output_length (x : List ℚ) (w : ℤ) (hx : x ≠ []) (hw : 1 ≤ w) :
    moving_average x w = .ok (maOut x w) ∧
      (maOut x w).length = max x.length w.toNat ∧
      (w.toNat ≤ x.length → (maOut x w).length = x.length) :=
  ⟨moving_average_ok x w hx hw, maOut_length x w,
   fun h => by rw [maOut_length, Nat.max_eq_left h]⟩

/-- C2 witness: with `x = [1, 2]` and `W = 2 ≤ N` the output length is the
input length. -/
theorem c2_witness :
    moving_average [(1 : ℚ), 2] 2 = .ok (maOut [(1 : ℚ), 2] 2) ∧
      (maOut [(1 : ℚ), 2] 2).length = [(1 : ℚ), 2].length := by
  have h := c2_output_length [(1 : ℚ), 2] 2 (by simp) (by norm_num)
  exact ⟨h.1, by rw [h.2.2 (by decide)]⟩

/-- C3 (counterexample to the claim as stated): on the empty input sequence,
`moving_average` with `W = 1` does not return the input unchanged — it fails,
because `np.convolve` rejects empty arrays. -/
theorem c3_counterexample :
    moving_average ([] : List ℚ) 1 = .error .emptyInput ∧
      moving_average ([] : List ℚ) 1 ≠ .ok [] :=
  ⟨rfl, fun h => Except.noConfusion h⟩

/-- C3 (amended): for every nonempty input sequence, the moving average with
window size 1 returns the input sequence unchanged. -/
theorem c3_window_one_id (x : List ℚ) (hx : x ≠ []) :
    moving_average x 1 = .ok x := by
  rw [moving_average_ok x 1 hx le_rfl, maOut_one x hx]

/-- C3 witness: the amended theorem at the concrete input `[5, 7]`. -/
theorem c3_witness : moving_average [(5 : ℚ), 7] 1 = .ok [(5 : ℚ), 7] :=
  c3_window_one_id [(5 : ℚ), 7] (by simp)

/-- C4 (counterexample to the claim as stated): `W = 5 ≥ 1`, yet the call
fails on the empty input sequence (with numpy's empty-array `ValueError`), so
it is not the case that no `W ≥ 1` call fails. -/
theorem c4_counterexample :
    moving_average ([] : List ℚ) 5 = .error .emptyInput ∧ (1 : ℤ) ≤ 5 :=
  ⟨rfl, by norm_num⟩

/-- C4 (amended): `moving_average` fails with the `InvalidArgument` condition
exactly when `W < 1`; for `W ≥ 1` it fails — with numpy's empty-array error,
not `InvalidArgument` — exactly when the input sequence is empty. -/
theorem c4_error_conditions (x : List ℚ) (w : ℤ) :
    (moving_average x w = .error .invalidArgument ↔ w < 1) ∧
    (1 ≤ w → (moving_average x w = .error .emptyInput ↔ x = [])) := by
  constructor
  · by_cases hw : w < 1
    · simp [moving_average, hw]
    · simp only [moving_average, if_neg hw]
      cases hconv : convolveSame x (List.replicate w.toNat ((1 : ℚ) / (w.toNat : ℚ))) with
      | none => simp [hw]
      | some out => simp [hw]
  · intro hw
    constructor
    · intro h
      by_contra hne
      rw [moving_average_ok x w hne hw] at h
      exact Except.noConfusion h
    · intro hxnil
      subst hxnil
      unfold moving_average
      rw [if_neg (by omega : ¬ w < 1)]
      rfl

/-- C4 witness: `W = 0 < 1` yields `InvalidArgument`; `W = 2 ≥ 1` on the
empty sequence yields the empty-input error. -/
theorem c4_witness :
    moving_average [(7 : ℚ)] 0 = .error .invalidArgument ∧
      moving_average ([] : List ℚ) 2 = .error .emptyInput :=
  ⟨(c4_error_conditions [(7 : ℚ)] 0).1.mpr (by norm_num),
   ((c4_error_conditions ([] : List ℚ) 2).2 (by norm_num)).mpr rfl⟩

/-! ## log_trend_analyzer.py : line parsing

Strings are modelled as `List Char`.  A Python `dict` is modelled as an
association list with unique keys in insertion order: assignment to an
existing key replaces the value in place, assignment to a new key appends. -/

/-- Lookup in a Python-dict model (first matching key). -/
def dictGet {α β : Type} [DecidableEq α] : List (α × β) → α → Option β
  | [], _ => none
  | (a, b) :: d, k => if k = a then some b else dictGet d k

/-- Assignment `d[k] = v` on a Python-dict model: replace in place if the key
exists, else append. -/
def dictInsert {α β : Type} [DecidableEq α] : List (α × β) → α → β → List (α × β)
  | [], k, v => [(k, v)]
  | (a, b) :: d, k, v => if k = a then (a, v) :: d else (a, b) :: dictInsert d k v

/-- ASCII whitespace as recognized by Python's `str.strip()`. -/
def isPySpace (c : Char) : Bool :=
  c = ' ' || c = '\t' || c = '\n' || c = '\r' || c = '\x0b' || c = '\x0c'

/-- Python `str.strip()` (ASCII whitespace; the scripts never feed non-ASCII
whitespace). -/
def pyStrip (s : List Char) : List Char :=
  ((s.dropWhile isPySpace).reverse.dropWhile isPySpace).reverse

/-- Split at the first occurrence of `sep` (Python `s.split(sep, 1)` when it
succeeds); `none` when `sep` does not occur. -/
def splitFirst (sep : Char) : List Char → Option (List Char × List Char)
  | [] => none
  | c :: cs =>
    if c = sep then some ([], cs)
    else (splitFirst sep cs).map (fun p => (c :: p.1, p.2))

/-- Model of `LOG_PATTERN.match(line)`: the verbose regex
`^([^,]+),([^,]+),([^,]+),(.+)$`.  Because `[^,]+` cannot cross a comma and is
followed by a literal comma, the first three fields are exactly the (nonempty)
segments before the first three commas, and the message is the nonempty
remainder, which may itself contain commas.  (`.` not matching a newline is
irrelevant here: lines come from a line iterator and are stripped.) -/
def logMatch (line : List Char) :
    Option (List Char × List Char × List Char × List Char) := do
  let (ts, r1) ← splitFirst ',' line
  let (lvl, r2) ← splitFirst ',' r1
  let (iid, msg) ← splitFirst ',' r2
  if ts.isEmpty || lvl.isEmpty || iid.isEmpty || msg.isEmpty then none
  else some (ts, lvl, iid, msg)

/-- Separator class of `re.split(r"[ ,]+", ...)`. -/
def isTokSep (c : Char) : Bool :=
  c = ' ' || c = ','

/-- Model of `re.split(r"[ ,]+", s)`: split on maximal nonempty runs of spaces and
commas; a run at either end contributes an empty token there, and the empty
string yields `[""]`.  The recursion skips a whole separator run at once, so
it is driven by a fuel counter (structural in the fuel); `resplit` supplies
`length + 1` fuel, which is always sufficient since every step consumes at
least one character. -/
def resplitAux : ℕ → List Char → List Char → List (List Char)
  | 0, _, acc => [acc.reverse]
  | _ + 1, [], acc => [acc.reverse]
  | fuel + 1, c :: rest, acc =>
    if isTokSep c then acc.reverse :: resplitAux fuel (rest.dropWhile isTokSep) []
    else resplitAux fuel rest (c :: acc)

def resplit (cs : List Char) : List (List Char) :=
  resplitAux (cs.length + 1) cs []

example : resplit (", a=1  b=2,".toList) =
    ["".toList, "a=1".toList, "b=2".toList, "".toList] := by
  rfl

/-- Result of Python `float(s)`: floats include signed infinities and NaN
(`float("inf")`, `float("-nan")` succeed); finite values are exact here. -/
inductive PyFloat where
  | finite (q : ℚ)
  | inf (neg : Bool)
  | nan
deriving DecidableEq

def digitVal (c : Char) : ℕ :=
  c.toNat - '0'.toNat

/-- Consume a run of decimal digits in which single underscores may appear
only between two digits (PEP 515, the grammar accepted by `float()`).
Returns the accumulated value, the number of digits consumed, and the rest.
A leading underscore (`n = 0`), a trailing underscore, a doubled underscore
or an underscore not followed by a digit is left unconsumed in the rest, so
the caller's end-of-input check rejects it. -/
def digitsU : List Char → ℕ → ℕ → ℕ × ℕ × List Char
  | c :: rest, acc, n =>
    if c.isDigit then digitsU rest (10 * acc + digitVal c) (n + 1)
    else if c = '_' && n ≠ 0 then
      match rest with
      | d :: rest2 =>
        if d.isDigit then digitsU rest2 (10 * acc + digitVal d) (n + 1)
        else (acc, n, c :: rest)
      | [] => (acc, n, c :: rest)
    else (acc, n, c :: rest)
  | [], acc, n => (acc, n, [])

/-- Exponent digits (after `e`/`E` and an optional sign); must be a nonempty
digit run consuming the whole rest. -/
def expDigits (cs : List Char) (neg : Bool) : Option ℤ :=
  let (v, n, r) := digitsU cs 0 0
  if n = 0 then none
  else if r.isEmpty then some (if neg then -(v : ℤ) else (v : ℤ))
  else none

/-- Optional exponent part closing the literal: empty input means exponent 0;
otherwise `e`/`E`, an optional sign, and digits consuming everything. -/
def expPart : List Char → Option ℤ
  | [] => some 0
  | c :: rest =>
    if c = 'e' || c = 'E' then
      match rest with
      | '+' :: r2 => expDigits r2 false
      | '-' :: r2 => expDigits r2 true
      | r2 => expDigits r2 false
    else none

/-- Assemble the exact value of a finite float literal. -/
def mkFinite (neg : Bool) (ival fval frc : ℕ) (e : ℤ) : PyFloat :=
  let mag : ℚ := ((ival : ℚ) + (fval : ℚ) / (10 : ℚ) ^ frc) * (10 : ℚ) ^ e
  .finite (if neg then -mag else mag)

def finishNum (neg : Bool) (ival fval frc : ℕ) (rest : List Char) : Option PyFloat :=
  (expPart rest).map (mkFinite neg ival fval frc)

/-- Case-insensitive comparison against a lowercase word. -/
def lowerEq (cs : List Char) (s : List Char) : Bool :=
  cs.map Char.toLower = s

/-- The body of a float literal after the optional sign: `inf`, `infinity`,
`nan` (case-insensitive), or a decimal with optional fraction and exponent
(at least one digit overall). -/
def pyFloatMag (cs : List Char) (neg : Bool) : Option PyFloat :=
  if lowerEq cs ['i', 'n', 'f'] || lowerEq cs ['i', 'n', 'f', 'i', 'n', 'i', 't', 'y'] then
    some (.inf neg)
  else if lowerEq cs ['n', 'a', 'n'] then some .nan
  else
    let (ival, intc, r1) := digitsU cs 0 0
    match r1 with
    | '.' :: r2 =>
      let (fval, frc, r3) := digitsU r2 0 0
      if intc = 0 && frc = 0 then none
      else finishNum neg ival fval frc r3
    | _ =>
      if intc = 0 then none
      else finishNum neg ival 0 0 r1

/-- Python `float(s)` on ASCII input: strip whitespace, optional single sign,
then the literal body.  `none` models `ValueError`. -/
def pyFloat (s : List Char) : Option PyFloat :=
  match pyStrip s with
  | '+' :: rest => pyFloatMag rest false
  | '-' :: rest => pyFloatMag rest true
  | rest => pyFloatMag rest false

example : pyFloat "101.3".toList = some (.finite (1013 / 10)) := by
  with_unfolding_all rfl
example : pyFloat "-2e3".toList = some (.finite (-2000)) := by
  with_unfolding_all rfl
example : pyFloat "1_0.5".toList = some (.finite (21 / 2)) := by
  with_unfolding_all rfl
example : pyFloat "pump_stall".toList = none := by rfl
example : pyFloat "_1".toList = none := by rfl
example : pyFloat "1_".toList = none := by rfl
example : pyFloat "-inf".toList = some (.inf true) := by rfl
example : pyFloat "".toList = none := by rfl

/-- Function `parse_message` from log_trend_analyzer.py:

    result = {}
    if "=" not in message: return result
    tokens = re.split(r"[ ,]+", message.strip())
    for token in tokens:
        if "=" in token:
            key, value_str = token.split("=", 1)
            try: value = float(value_str)
            except ValueError: value = None
            result[key] = value
    return result
-/
def parse_message (message : List Char) : List (List Char × Option PyFloat) :=
  if message.contains '=' then
    (resplit (pyStrip message)).foldl
      (fun result token =>
        match splitFirst '=' token with
        | some kv => dictInsert result kv.1 (pyFloat kv.2)
        | none => result)
      []
  else []

example : parse_message "pressure_kpa=101.3".toList =
    [("pressure_kpa".toList, some (.finite (1013 / 10)))] := by
  with_unfolding_all rfl
example : parse_message "pump_stall".toList = [] := by rfl
example : parse_message "a=x, b=2".toList =
    [("a".toList, none), ("b".toList, some (.finite 2))] := by
  with_unfolding_all rfl

/-! ## log_trend_analyzer.py : `load_log`

A record value is a raw string (the four base fields), a metric value from
`parse_message` (a float or Python `None`), or a parsed datetime.  The
datetime type `τ` and the `pd.to_datetime(..., errors="coerce")` parser are
parameters of the embedding: the theorems hold for every behaviour of that
collaborator. -/

inductive Value (τ : Type) where
  | str (s : List Char)
  | num (v : Option PyFloat)
  | dt (t : τ)
deriving DecidableEq

/-- Convenience: string literal to `List Char` key. -/
def strKey (s : String) : List Char :=
  s.toList

/-- The record built for one matching log line:

    record = {"timestamp": ..., "level": ..., "instrument_id": ..., "message": ...}
    record.update(msg_fields)

`dict.update` assigns each parsed message field in order, overwriting base
fields on key collision. -/
def buildRecord {τ : Type} (ts lvl iid msg : List Char) : List (List Char × Value τ) :=
  (parse_message msg).foldl
    (fun r kv => dictInsert r kv.1 (Value.num kv.2))
    [(strKey "timestamp", .str ts), (strKey "level", .str lvl),
     (strKey "instrument_id", .str iid), (strKey "message", .str msg)]

/-- One iteration of the `for line in f` loop body after `line.strip()`:
`none` when the (stripped) line is skipped. -/
def lineRecord {τ : Type} (line : List Char) : Option (List (List Char × Value τ)) :=
  (logMatch line).map (fun r => buildRecord r.1 r.2.1 r.2.2.1 r.2.2.2)

/-- The `records` list accumulated by `load_log`'s loop: empty lines and lines
not matching `LOG_PATTERN` are skipped. -/
def collectRecords (τ : Type) : List (List Char) → List (List (List Char × Value τ))
  | [] => []
  | l :: ls =>
    let s := pyStrip l
    if s.isEmpty then collectRecords τ ls
    else
      match lineRecord (τ := τ) s with
      | none => collectRecords τ ls
      | some r => r :: collectRecords τ ls

/-- Loader failure conditions across the three scripts. -/
inductive LoadError where
  | emptyDataset
  | missingColumn
deriving DecidableEq

/-- Function `load_log` from log_trend_analyzer.py: collect records line by line;
`raise ValueError("No valid log lines parsed.")` when none were parsed; then
`df["timestamp"] = pd.to_datetime(df["timestamp"], errors="coerce")` and
`df.dropna(subset=["timestamp"])`: each record's timestamp is replaced by its
parsed datetime, and records whose timestamp fails to parse are dropped
(possibly leaving zero records, which is not an error here). -/
def load_log {τ : Type} (toDT : Value τ → Option τ) (lines : List (List Char)) :
    Except LoadError (List (List (List Char × Value τ))) :=
  let records := collectRecords τ lines
  if records.isEmpty then .error .emptyDataset
  else
    .ok (records.filterMap (fun r =>
      match dictGet r (strKey "timestamp") with
      | some v => (toDT v).map (fun t => dictInsert r (strKey "timestamp") (Value.dt t))
      | none => none))

/-! ## Dictionary lemmas -/

theorem dictGet_dictInsert {α β : Type} [DecidableEq α] (d : List (α × β)) (a : α)
    (v : β) (k : α) :
    dictGet (dictInsert d a v) k = if k = a then some v else dictGet d k := by
  induction d with
  | nil => simp [dictInsert, dictGet]
  | cons p rest ih =>
    obtain ⟨x, y⟩ := p
    by_cases hax : a = x
    · subst hax
      simp only [dictInsert, if_pos rfl, dictGet]
      by_cases hka : k = a <;> simp [hka]
    · simp only [dictInsert, if_neg hax, dictGet]
      by_cases hkx : k = x
      · subst hkx
        have hka : ¬ k = a := fun hh => hax hh.symm
        simp [hka]
      · simp [hkx, ih]

theorem dictGet_append {α β : Type} [DecidableEq α] (l1 l2 : List (α × β)) (k : α) :
    dictGet (l1 ++ l2) k =
      match dictGet l1 k with
      | some v => some v
      | none => dictGet l2 k := by
  induction l1 with
  | nil => simp [dictGet]
  | cons p rest ih =>
    obtain ⟨x, y⟩ := p
    by_cases hkx : k = x
    · simp [dictGet, hkx]
    · simp [dictGet, hkx, ih]

/-- The value of the last pair with key `k` (Python dicts built by repeated
assignment: last occurrence wins). -/
def lastAssoc {α β : Type} [DecidableEq α] (l : List (α × β)) (k : α) : Option β :=
  dictGet l.reverse k

theorem lastAssoc_cons {α β : Type} [DecidableEq α] (a : α) (b : β)
    (l : List (α × β)) (k : α) :
    lastAssoc ((a, b) :: l) k =
      match lastAssoc l k with
      | some v => some v
      | none => if k = a then some b else none := by
  unfold lastAssoc
  rw [List.reverse_cons, dictGet_append]
  cases dictGet l.reverse k with
  | none => simp [dictGet]
  | some v => rfl

theorem dictGet_foldl_insert {α β γ : Type} [DecidableEq α] (f : β → γ) :
    ∀ (kvs : List (α × β)) (base : List (α × γ)) (k : α),
      dictGet (kvs.foldl (fun r kv => dictInsert r kv.1 (f kv.2)) base) k =
        match lastAssoc kvs k with
        | some v => some (f v)
        | none => dictGet base k
  | [], base, k => by simp [lastAssoc, dictGet]
  | (a, b) :: rest, base, k => by
    rw [List.foldl_cons]
    rw [dictGet_foldl_insert f rest (dictInsert base a (f b)) k]
    rw [lastAssoc_cons, dictGet_dictInsert]
    cases hrest : lastAssoc rest k with
    | some v => rfl
    | none =>
      by_cases hka : k = a <;> simp [hka]

theorem parse_fold_eq :
    ∀ (tokens : List (List Char)) (base : List (List Char × Option PyFloat)),
      tokens.foldl
          (fun result token =>
            match splitFirst '=' token with
            | some kv => dictInsert result kv.1 (pyFloat kv.2)
            | none => result) base =
        (tokens.filterMap (splitFirst '=')).foldl
          (fun r kv => dictInsert r kv.1 (pyFloat kv.2)) base
  | [], _ => rfl
  | t :: rest, base => by
    rw [List.foldl_cons, List.filterMap_cons]
    cases hgt : splitFirst '=' t with
    | none => simp only [hgt]; exact parse_fold_eq rest base
    | some kv => simp only [hgt, List.foldl_cons]; exact parse_fold_eq rest _

/-- The tokens scanned by `parse_message` (empty when the message contains no
`=` and the early return fires). -/
def tokensOf (message : List Char) : List (List Char) :=
  if message.contains '=' then resplit (pyStrip message) else []

/-- The `key=value` splits of the scanned tokens, in scan order. -/
def keyVals (message : List Char) : List (List Char × List Char) :=
  (tokensOf message).filterMap (splitFirst '=')

theorem parse_message_eq (message : List Char) :
    parse_message message =
      (keyVals message).foldl (fun r kv => dictInsert r kv.1 (pyFloat kv.2)) [] := by
  unfold parse_message keyVals tokensOf
  split_ifs with h
  · exact parse_fold_eq (resplit (pyStrip message)) []
  · rfl

theorem mem_keys_dictInsert {α β : Type} [DecidableEq α] (d : List (α × β)) (a : α)
    (v : β) (k : α) :
    k ∈ (dictInsert d a v).map Prod.fst ↔ k = a ∨ k ∈ d.map Prod.fst := by
  induction d with
  | nil => simp [dictInsert]
  | cons p rest ih =>
    obtain ⟨x, y⟩ := p
    by_cases hax : a = x
    · subst hax
      simp [dictInsert]
    · simp only [dictInsert, if_neg hax, List.map_cons, List.mem_cons, ih]
      tauto

theorem nodupKeys_dictInsert {α β : Type} [DecidableEq α] (d : List (α × β)) (a : α)
    (v : β) (h : (d.map Prod.fst).Nodup) :
    ((dictInsert d a v).map Prod.fst).Nodup := by
  induction d with
  | nil => simp [dictInsert]
  | cons p rest ih =>
    obtain ⟨x, y⟩ := p
    simp only [List.map_cons, List.nodup_cons] at h
    by_cases hax : a = x
    · subst hax
      simpa [dictInsert] using h
    · simp only [dictInsert, if_neg hax, List.map_cons, List.nodup_cons]
      constructor
      · rw [mem_keys_dictInsert]
        rintro (rfl | hx)
        · exact hax rfl
        · exact h.1 hx
      · exact ih h.2

theorem nodupKeys_foldl_insert {α β γ : Type} [DecidableEq α] (f : β → γ) :
    ∀ (kvs : List (α × β)) (base : List (α × γ)),
      (base.map Prod.fst).Nodup →
      (((kvs.foldl (fun r kv => dictInsert r kv.1 (f kv.2)) base)).map Prod.fst).Nodup
  | [], base, h => h
  | (a, b) :: rest, base, h => by
    rw [List.foldl_cons]
    exact nodupKeys_foldl_insert f rest _ (nodupKeys_dictInsert base a (f b) h)

theorem parse_message_nodupKeys (message : List Char) :
    ((parse_message message).map Prod.fst).Nodup := by
  rw [parse_message_eq]
  exact nodupKeys_foldl_insert pyFloat (keyVals message) [] (by simp)

theorem dictGet_eq_none_of_not_mem {α β : Type} [DecidableEq α]
    {d : List (α × β)} {k : α} (h : k ∉ d.map Prod.fst) :
    dictGet d k = none := by
  induction d with
  | nil => rfl
  | cons p rest ih =>
    obtain ⟨x, y⟩ := p
    simp only [List.map_cons, List.mem_cons] at h
    push_neg at h
    simp [dictGet, h.1, ih h.2]

theorem lastAssoc_eq_dictGet_of_nodup {α β : Type} [DecidableEq α] :
    ∀ {d : List (α × β)}, (d.map Prod.fst).Nodup → ∀ (k : α),
      lastAssoc d k = dictGet d k
  | [], _, k => rfl
  | (a, b) :: rest, h, k => by
    simp only [List.map_cons, List.nodup_cons] at h
    rw [lastAssoc_cons, lastAssoc_eq_dictGet_of_nodup h.2 k]
    by_cases hka : k = a
    · subst hka
      rw [dictGet_eq_none_of_not_mem h.1]
      simp [dictGet]
    · cases hrest : dictGet rest k with
      | some v => simp [dictGet, hka, hrest]
      | none => simp [dictGet, hka, hrest]

theorem collectRecords_cons_of_nomatch {τ : Type} (l : List Char)
    (ls : List (List Char)) (h : logMatch (pyStrip l) = none) :
    collectRecords τ (l :: ls) = collectRecords τ ls := by
  by_cases h0 : (pyStrip l).isEmpty
  · simp only [collectRecords]
    simp [h0]
  · simp only [collectRecords]
    simp [h0, lineRecord, h]

/-- C5: a log line that does not match the four-comma-separated-field pattern
contributes no record and raises no error: loading a file with the line
prepended gives exactly the result of loading the file without it (both the
collected records and the overall success/failure are unchanged), for every
behaviour of the timestamp parser. -/
theorem c5_nonmatching_line_skipped {τ : Type} (toDT : Value τ → Option τ)
    (line : List Char) (ls : List (List Char))
    (h : logMatch (pyStrip line) = none) :
    load_log toDT (line :: ls) = load_log toDT ls := by
  unfold load_log
  rw [collectRecords_cons_of_nomatch line ls h]

/-- C5 witness: a junk line before a well-formed `pump_stall` line changes
nothing, and the well-formed line alone loads to the expected single record
(the spec's own worked example). -/
theorem c5_witness :
    load_log (τ := Unit) (fun _ => some ())
        [strKey "not a log line", strKey "2025-02-01 10:10:15,ERROR,IVD-002,pump_stall"] =
      load_log (fun _ => some ())
        [strKey "2025-02-01 10:10:15,ERROR,IVD-002,pump_stall"] ∧
    load_log (τ := Unit) (fun _ => some ())
        [strKey "2025-02-01 10:10:15,ERROR,IVD-002,pump_stall"] =
      .ok [[(strKey "timestamp", Value.dt ()),
            (strKey "level", Value.str (strKey "ERROR")),
            (strKey "instrument_id", Value.str (strKey "IVD-002")),
            (strKey "message", Value.str (strKey "pump_stall"))]] :=
  ⟨c5_nonmatching_line_skipped (fun _ => some ()) (strKey "not a log line") _ rfl,
   by rfl⟩

/-- C6 (counterexample to the claim as stated): in the message `a=x a=1` the
token `a=x` has an unparsable value, yet the resulting record maps `a` to the
float `1` (the later duplicate wins), not to a null value. -/
theorem c6_counterexample :
    pyFloat (strKey "x") = none ∧
    (strKey "a", strKey "x") ∈ keyVals (strKey "a=x a=1") ∧
    dictGet (parse_message (strKey "a=x a=1")) (strKey "a") = some (some (.finite 1)) ∧
    dictGet (parse_message (strKey "a=x a=1")) (strKey "a") ≠ some none := by
  have h3 : dictGet (parse_message (strKey "a=x a=1")) (strKey "a")
      = some (some (.finite 1)) := by with_unfolding_all rfl
  refine ⟨rfl, by decide, h3, ?_⟩
  rw [h3]
  simp

/-- C6 (amended): a key scanned from the message is never dropped and never
makes parsing fail; its recorded value is exactly the float-parse of the value
string of the *last* `key=value` token for that key — `some none` (present but
null) when that last value string fails to parse as a float, `some (some q)`
when it parses, and `none` (absent) only when no `key=value` token mentions
the key.  (The claim as stated fails only for a key whose unparsable token is
followed by a later parsable duplicate.) -/
theorem c6_message_value_map (message k : List Char) :
    dictGet (parse_message message) k = (lastAssoc (keyVals message) k).map pyFloat := by
  rw [parse_message_eq, dictGet_foldl_insert]
  cases h : lastAssoc (keyVals message) k with
  | some v => rfl
  | none => rfl

/-- C10: when a well-formed line's message contains `key=value` tokens, the
parsed message fields overwrite the base fields on key collision: whatever
final value `parse_message` assigns to a key — including the base keys
`timestamp`, `level`, `instrument_id`, `message` — appears in the record as a
numeric/null `Value.num`, never as the base string. -/
theorem c10_message_fields_overwrite_base {τ : Type}
    (line ts lvl iid msg k : List Char) (v : Option PyFloat)
    (hmatch : logMatch line = some (ts, lvl, iid, msg))
    (hv : dictGet (parse_message msg) k = some v) :
    lineRecord (τ := τ) line = some (buildRecord ts lvl iid msg) ∧
      dictGet (buildRecord (τ := τ) ts lvl iid msg) k = some (Value.num v) ∧
      ∀ s : List Char,
        dictGet (buildRecord (τ := τ) ts lvl iid msg) k ≠ some (Value.str s) := by
  have h2 : dictGet (buildRecord (τ := τ) ts lvl iid msg) k = some (Value.num v) := by
    unfold buildRecord
    rw [dictGet_foldl_insert,
      lastAssoc_eq_dictGet_of_nodup (parse_message_nodupKeys msg) k, hv]
  refine ⟨?_, h2, ?_⟩
  · unfold lineRecord
    rw [hmatch]
    rfl
  · intro s
    rw [h2]
    simp

/-- C10 witness: the line whose message is `timestamp=1.5` produces a record
whose `timestamp` field is the float `1.5`, not the line's timestamp string. -/
theorem c10_witness :
    lineRecord (τ := Unit) (strKey "2025-02-01 10:00:01,INFO,IVD-001,timestamp=1.5") =
      some (buildRecord (strKey "2025-02-01 10:00:01") (strKey "INFO")
        (strKey "IVD-001") (strKey "timestamp=1.5")) ∧
    dictGet (buildRecord (τ := Unit) (strKey "2025-02-01 10:00:01") (strKey "INFO")
        (strKey "IVD-001") (strKey "timestamp=1.5")) (strKey "timestamp")
      = some (Value.num (some (.finite (3/2)))) := by
  have h := c10_message_fields_overwrite_base (τ := Unit)
    (strKey "2025-02-01 10:00:01,INFO,IVD-001,timestamp=1.5")
    (strKey "2025-02-01 10:00:01") (strKey "INFO") (strKey "IVD-001")
    (strKey "timestamp=1.5") (strKey "timestamp") (some (.finite (3/2)))
    rfl (by with_unfolding_all rfl)
  exact ⟨h.1, h.2.1⟩

/-! ## csv_trend_analyzer.py / json_trend_analyzer.py : loaders

`pd.read_csv` yields a header (column names) and rows; `json.load` yields a
list of flat objects, and `pd.DataFrame` takes the union of their keys as
columns (so "the timestamp field exists" means some object has the key).
`pd.to_datetime(..., errors="coerce")` followed by
`df.dropna(subset=["timestamp"])` keeps exactly the rows whose timestamp
parses; the parser `toDT` is a parameter.  (The real loaders also replace the
timestamp cell by the parsed value; the claims below only inspect which rows
survive and whether the load fails, so the surviving rows are returned as
read.) -/

structure Csv where
  header : List String
  rows : List (List String)

/-- Function `load_csv` from csv_trend_analyzer.py: `ValueError` when no `timestamp`
column exists; otherwise drop the rows whose timestamp fails to parse and
return the rest — with no emptiness check. -/
def load_csv {τ : Type} (toDT : String → Option τ) (csv : Csv) :
    Except LoadError (List (List String)) :=
  if "timestamp" ∈ csv.header then
    let i := csv.header.indexOf "timestamp"
    .ok (csv.rows.filter (fun row => ((row[i]?).bind toDT).isSome))
  else .error .missingColumn

/-- Function `load_json` from json_trend_analyzer.py: `ValueError` when no object has
a `timestamp` field (in particular for an empty array); otherwise drop the
records whose timestamp fails to parse and return the rest — with no
emptiness check. -/
def load_json {α τ : Type} (toDT : α → Option τ) (objs : List (List (String × α))) :
    Except LoadError (List (List (String × α))) :=
  if objs.any (fun o => (dictGet o "timestamp").isSome) then
    .ok (objs.filter (fun o => ((dictGet o "timestamp").bind toDT).isSome))
  else .error .missingColumn

/-- C7 (counterexample to the claim as stated): a CSV with a `timestamp`
column whose single row's timestamp does not parse: every record is dropped,
yet `load_csv` returns the empty dataset successfully instead of failing with
an `EmptyDataset` condition. -/
theorem c7_counterexample :
    load_csv (fun (_ : String) => (none : Option Unit))
        ⟨["timestamp"], [["not-a-date"]]⟩ = .ok [] ∧
      load_csv (fun (_ : String) => (none : Option Unit))
        ⟨["timestamp"], [["not-a-date"]]⟩ ≠ .error .emptyDataset := by
  have h1 : load_csv (fun (_ : String) => (none : Option Unit))
      ⟨["timestamp"], [["not-a-date"]]⟩ = .ok [] := rfl
  exact ⟨h1, by rw [h1]; simp⟩

/-- C7 (amended): when the input has a timestamp field, the CSV and JSON
loaders never fail — they return the surviving records even when none
survive; only the log loader has an `EmptyDataset` failure, and it fires
exactly when zero lines match the log pattern, before timestamp dropping
(an empty dataset is instead detected later, in each driver's `main`). -/
theorem c7_loader_empty_behaviour :
    (∀ (τ : Type) (toDT : String → Option τ) (csv : Csv),
      "timestamp" ∈ csv.header →
      ∀ e : LoadError, load_csv toDT csv ≠ .error e) ∧
    (∀ (α τ : Type) (toDT : α → Option τ) (objs : List (List (String × α))),
      objs.any (fun o => (dictGet o "timestamp").isSome) = true →
      ∀ e : LoadError, load_json toDT objs ≠ .error e) ∧
    (∀ (τ : Type) (toDT : Value τ → Option τ) (lines : List (List Char)),
      load_log toDT lines = .error .emptyDataset ↔ collectRecords τ lines = []) := by
  refine ⟨?_, ?_, ?_⟩
  · intro τ toDT csv hcol e
    unfold load_csv
    rw [if_pos hcol]
    intro h
    exact Except.noConfusion h
  · intro α τ toDT objs hcol e
    unfold load_json
    rw [if_pos hcol]
    intro h
    exact Except.noConfusion h
  · intro τ toDT lines
    unfold load_log
    cases hr : collectRecords τ lines with
    | nil => simp
    | cons r rs => simp

/-- C7 witness: the amended theorem instantiated — a CSV whose only row is
dropped still does not produce `EmptyDataset`, and a log input with zero
parsed records does. -/
theorem c7_witness :
    load_csv (fun (_ : String) => (none : Option Unit)) ⟨["timestamp"], [["x"]]⟩
        ≠ .error .emptyDataset ∧
      load_log (τ := Unit) (fun _ => some ()) [] = .error .emptyDataset :=
  ⟨c7_loader_empty_behaviour.1 Unit (fun _ => none) ⟨["timestamp"], [["x"]]⟩
      (by decide) .emptyDataset,
   (c7_loader_empty_behaviour.2.2 Unit (fun _ => some ()) []).mpr rfl⟩

/-! ## summarization (csv `summarize_value`, json `summarize`)

A loaded DataFrame is modelled column-oriented: a list of
`(column name, column values)` pairs, with `none` cells for NaN.  Statistics
are over the non-null values (`dropna`); the sample standard deviation is
represented by the sample variance, its square (the square root is not
rational; nothing below depends on it). -/

structure Stats where
  count : ℕ
  mean : Option ℚ
  variance : Option ℚ
  minv : Option ℚ
  maxv : Option ℚ
deriving DecidableEq

def dropna (col : List (Option ℚ)) : List ℚ :=
  col.filterMap id

def colMin : List ℚ → Option ℚ
  | [] => none
  | v :: rest => some (rest.foldl min v)

def colMax : List ℚ → Option ℚ
  | [] => none
  | v :: rest => some (rest.foldl max v)

/-- count / mean / std (as sample variance) / min / max of a value series, as
printed by both summarizers; pandas yields NaN (here `none`) for the mean of
an empty series and for the sample deviation of fewer than two values. -/
def statsOf (vals : List ℚ) : Stats where
  count := vals.length
  mean := if vals.length = 0 then none else some (vals.sum / vals.length)
  variance :=
    if vals.length < 2 then none
    else some (((vals.map (fun v => (v - vals.sum / vals.length) ^ 2)).sum)
      / ((vals.length : ℚ) - 1))
  minv := colMin vals
  maxv := colMax vals

/-- Outcome of `summarize_value` from csv_trend_analyzer.py: either the
placeholder print `No 'value' column found; skipping numeric summary.`
followed by a plain return, or the printed statistics. -/
inductive ValueSummary where
  | placeholder
  | stats (s : Stats)
deriving DecidableEq

def summarize_value (df : List (String × List (Option ℚ))) : ValueSummary :=
  match dictGet df "value" with
  | none => .placeholder
  | some col => .stats (statsOf (dropna col))

/-- Failure of `summarize` from json_trend_analyzer.py:
`ValueError(f"Metric ... not found in data")`. -/
inductive SummarizeError where
  | unknownMetric (metric : String)
deriving DecidableEq

/-- Function `summarize` from json_trend_analyzer.py: unlike the CSV script's
`summarize_value`, a missing metric column raises. -/
def summarize (df : List (String × List (Option ℚ))) (metric : String) :
    Except SummarizeError Stats :=
  match dictGet df metric with
  | none => .error (.unknownMetric metric)
  | some col => .ok (statsOf (dropna col))

/-- C8 (counterexample to the claim as stated): the JSON script's summarizer
does not skip with a placeholder when the requested field is absent — it
fails with the `UnknownMetric` condition. -/
theorem c8_counterexample :
    summarize [("timestamp", [some 1])] "value" = .error (.unknownMetric "value") := by
  rfl

/-- C8 (amended): when the named field is wholly absent, the CSV script's
`summarize_value` skips without a fatal error and produces the placeholder,
but the JSON script's `summarize` fails fatally with an `UnknownMetric`
condition. -/
theorem c8_absent_field_behaviour :
    (∀ df : List (String × List (Option ℚ)),
      dictGet df "value" = none → summarize_value df = .placeholder) ∧
    (∀ (df : List (String × List (Option ℚ))) (metric : String),
      dictGet df metric = none → summarize df metric = .error (.unknownMetric metric)) := by
  constructor
  · intro df h
    unfold summarize_value
    rw [h]
  · intro df metric h
    unfold summarize
    rw [h]

/-- C8 witness: both branches of the amended theorem at a concrete dataset
with no `value` column. -/
theorem c8_witness :
    summarize_value [("timestamp", [some 1])] = .placeholder ∧
      summarize [] "value" = .error (.unknownMetric "value") :=
  ⟨c8_absent_field_behaviour.1 [("timestamp", [some 1])] rfl,
   c8_absent_field_behaviour.2 [] "value" rfl⟩

/-! ## `main` filtering step (all three scripts)

After loading, each `main` runs

    if args.instrument:                 # Python truthiness: "" is falsy
        (csv/json only) if "instrument_id" not in df.columns: raise SystemExit(...)
        df = df[df["instrument_id"] == args.instrument]
    if df.empty:
        raise SystemExit(...)

`SystemExit` conditions are `MissingColumn` (no such column to filter on) and
`EmptyDataset` (no data after filtering). -/

inductive MainError where
  | missingColumn
  | emptyDataset
deriving DecidableEq

/-- Python truthiness of `args.instrument : Optional[str]`: absent and the
empty string are both falsy. -/
def truthy : Option String → Bool
  | none => false
  | some s => !s.isEmpty

/-- The filter-and-check fragment of `main` in csv_trend_analyzer.py and
json_trend_analyzer.py, over a frame given by its header and rows. -/
def mainFilter (instrument : Option String) (hdr : List String)
    (rows : List (List String)) : Except MainError (List (List String)) :=
  if truthy instrument then
    if "instrument_id" ∈ hdr then
      let i := hdr.indexOf "instrument_id"
      let rows2 := rows.filter (fun row => row[i]? = some (instrument.getD ""))
      if rows2.isEmpty then .error .emptyDataset else .ok rows2
    else .error .missingColumn
  else if rows.isEmpty then .error .emptyDataset else .ok rows

/-- The filter-and-check fragment of `main` in log_trend_analyzer.py (which
performs no column check: every parsed record has an `instrument_id` key,
though a message field may have overwritten it with a non-string, in which
case the equality with the requested string is simply false). -/
def logMainFilter {τ : Type} [DecidableEq τ] (instrument : Option String)
    (recs : List (List (List Char × Value τ))) :
    Except MainError (List (List (List Char × Value τ))) :=
  if truthy instrument then
    let recs2 := recs.filter (fun r =>
      dictGet r (strKey "instrument_id") = some (Value.str (instrument.getD "").toList))
    if recs2.isEmpty then .error .emptyDataset else .ok recs2
  else if recs.isEmpty then .error .emptyDataset else .ok recs

/-- C9 (counterexample to the claim as stated): requesting the instrument id
`""` matches zero rows of a dataset whose only row has instrument id
`IVD-001`, yet the run continues successfully with the whole (unfiltered)
dataset, because `if args.instrument:` treats the empty string as falsy and
never applies the filter. -/
theorem c9_counterexample :
    mainFilter (some "") ["instrument_id"] [["IVD-001"]] = .ok [["IVD-001"]] ∧
      [["IVD-001"]].filter
          (fun row => row[(["instrument_id"].indexOf "instrument_id")]? = some "") =
        ([] : List (List String)) := by
  exact ⟨rfl, rfl⟩

/-- C9 (amended): for every requested *non-empty* instrument id, filtering
that matches zero rows terminates the run with the `EmptyDataset` condition
instead of continuing with an empty result — in the CSV/JSON drivers
(provided the `instrument_id` column exists, otherwise `MissingColumn` fires
first) and in the log driver; an empty-string instrument id instead disables
filtering entirely. -/
theorem c9_zero_match_empty_dataset :
    (∀ (s : String) (hdr : List String) (rows : List (List String)),
      s ≠ "" →
      "instrument_id" ∈ hdr →
      rows.filter (fun row => row[hdr.indexOf "instrument_id"]? = some s) = [] →
      mainFilter (some s) hdr rows = .error .emptyDataset) ∧
    (∀ (τ : Type) (_inst : DecidableEq τ) (s : String)
        (recs : List (List (List Char × Value τ))),
      s ≠ "" →
      recs.filter
          (fun r => dictGet r (strKey "instrument_id") = some (Value.str s.toList)) = [] →
      logMainFilter (some s) recs = .error .emptyDataset) := by
  constructor
  · intro s hdr rows hs hcol hmatch
    have hse : s.isEmpty = false := by
      cases hse : s.isEmpty with
      | false => rfl
      | true => exact absurd ((String.isEmpty_iff s).mp hse) hs
    have ht : truthy (some s) = true := by
      simp [truthy, hse]
    unfold mainFilter
    rw [ht, if_pos rfl, if_pos hcol]
    show (if (rows.filter (fun row => row[hdr.indexOf "instrument_id"]? = some s)).isEmpty
        then (.error .emptyDataset : Except MainError (List (List String)))
        else .ok (rows.filter (fun row => row[hdr.indexOf "instrument_id"]? = some s)))
      = .error .emptyDataset
    rw [hmatch]
    rfl
  · intro τ _inst s recs hs hmatch
    have hse : s.isEmpty = false := by
      cases hse : s.isEmpty with
      | false => rfl
      | true => exact absurd ((String.isEmpty_iff s).mp hse) hs
    have ht : truthy (some s) = true := by
      simp [truthy, hse]
    unfold logMainFilter
    rw [ht, if_pos rfl]
    show (if (recs.filter (fun r =>
            dictGet r (strKey "instrument_id") = some (Value.str s.toList))).isEmpty
        then (.error .emptyDataset : Except MainError (List (List (List Char × Value τ))))
        else .ok (recs.filter (fun r =>
            dictGet r (strKey "instrument_id") = some (Value.str s.toList))))
      = .error .emptyDataset
    rw [hmatch]
    rfl

/-- C9 witness: requesting `IVD-999` against a single `IVD-001` row yields
`EmptyDataset` in the CSV/JSON driver fragment, and requesting `X` against an
empty record list yields `EmptyDataset` in the log driver fragment. -/
theorem c9_witness :
    mainFilter (some "IVD-999") ["instrument_id"] [["IVD-001"]]
        = .error .emptyDataset ∧
      logMainFilter (τ := Unit) (some "X") [] = .error .emptyDataset :=
  ⟨c9_zero_match_empty_dataset.1 "IVD-999" ["instrument_id"] [["IVD-001"]]
      (by decide) (by decide) rfl,
   c9_zero_match_empty_dataset.2 Unit inferInstance "X" [] (by decide) rfl⟩

end PythonGraphing
